import Mathlib

/-!
Verification development for the Flask e-commerce backend
(`backend/main.py`): a shallow embedding of its data model and request
handlers, with theorems checking the specification's claims about
authentication, cart aggregation, checkout, payment execution and the
order lifecycle.

Python `float` values are modelled as the exact rational values of IEEE
binary64 numbers; `pyFloat` performs round-to-nearest-even in the normal
range (all currency amounts handled by the program live there).
-/

namespace ECommerce

/-- Fuel-driven base-2 logarithm on naturals (structurally recursive so the
kernel can evaluate it): `log2fuel fuel n` is `⌊log₂ n⌋` as long as
`fuel ≥ log₂ n`. -/
def log2fuel : Nat → Nat → Nat
  | 0, _ => 0
  | fuel + 1, n => if 2 ≤ n then log2fuel fuel (n / 2) + 1 else 0

/-- `⌊log₂ n⌋` for positive `n` (0 for 0 and 1). -/
def nlog2 (n : Nat) : Nat := log2fuel n n

/-- Exact rational addition, written through the normalizing constructor
`mkRat` so the kernel can evaluate it (it equals `+` on `ℚ`). -/
def qadd (a b : ℚ) : ℚ := mkRat (a.num * b.den + b.num * a.den) (a.den * b.den)

/-- Exact rational multiplication through `mkRat` (it equals `*` on `ℚ`). -/
def qmul (a b : ℚ) : ℚ := mkRat (a.num * b.num) (a.den * b.den)

/-- Multiply a rational by `2^k` for an integer `k`. -/
def scalePow2 (q : ℚ) (k : ℤ) : ℚ :=
  if 0 ≤ k then mkRat (q.num * ((2 ^ k.toNat : ℕ) : ℤ)) q.den
  else mkRat q.num (q.den * 2 ^ (-k).toNat)

/-- Round `n / d` (with `d > 0`) to the nearest natural, ties to even. -/
def rndHE (n d : Nat) : Nat :=
  let q := n / d
  let r := n % d
  if 2 * r < d then q
  else if d < 2 * r then q + 1
  else if q % 2 = 0 then q else q + 1

/-- `⌊log₂ q⌋` for a positive rational `q`. -/
def floorLog2Q (q : ℚ) : ℤ :=
  let e0 : ℤ := (nlog2 q.num.natAbs : ℤ) - (nlog2 q.den : ℤ)
  if q < scalePow2 (mkRat 1 1) e0 then e0 - 1 else e0

/-- Round a positive rational to the nearest IEEE binary64 value
(53-bit mantissa, round half to even), returned as an exact rational. -/
def pyFloatPos (q : ℚ) : ℚ :=
  let e := floorLog2Q q
  let s := scalePow2 q (52 - e)
  scalePow2 ((rndHE s.num.natAbs s.den : ℕ) : ℚ) (e - 52)

/-- The IEEE binary64 value nearest to `q` (as an exact rational): the
model of Python's `float(...)` conversion and of every arithmetic result
in Python float expressions, in the normal range. -/
def pyFloat (q : ℚ) : ℚ :=
  if q.num = 0 then mkRat 0 1 else if q.num < 0 then -pyFloatPos (-q) else pyFloatPos q

/-- Round a rational to the nearest integer, ties to even. -/
def rndHEQ (q : ℚ) : ℤ :=
  if q.num < 0 then -((rndHE q.num.natAbs q.den : ℕ) : ℤ)
  else ((rndHE q.num.natAbs q.den : ℕ) : ℤ)

/-- Modelled from the spec: the repository's database schema (its `numeric`
price/amount columns) is not under `src/`; the spec's data model says these
columns hold decimal currency values. Casting an IEEE binary64 parameter
into such a column yields the shortest decimal that rounds back to the same
binary64 value (PostgreSQL's float8-to-numeric conversion), modelled here by
searching the decimal lengths 0..17. -/
def numericOfFloat (d : ℚ) : ℚ :=
  match (List.range 18).findSome? (fun k =>
    let c : ℚ := mkRat (rndHEQ (mkRat (d.num * ((10 ^ k : ℕ) : ℤ)) d.den)) (10 ^ k)
    if pyFloat c = d then some c else none) with
  | some c => c
  | none => d

/-- The value actually persisted in a `numeric` column when the handler
passes `float(x)` as the parameter: binary64 rounding followed by the
column cast. -/
def storedPrice (p : ℚ) : ℚ := numericOfFloat (pyFloat p)

/-! ## Data model (the five relations of the schema, §3 of the spec) -/

/-- A row of the `users` table. -/
structure User where
  id : Nat
  email : String
  username : String
  hashed_password : String
  role : String
deriving DecidableEq, Repr

/-- A row of the `products` table. -/
structure Product where
  id : Nat
  name : String
  description : String
  price : ℚ
  stock : Int
  category : String
  image_url : Option String
  vendor_id : Nat
  is_active : Bool
  created_at : Nat
deriving DecidableEq, Repr

/-- A row of the `cart_items` table. -/
structure CartItem where
  id : Nat
  user_id : Nat
  product_id : Nat
  quantity : Int
deriving DecidableEq, Repr

/-- A row of the `orders` table. -/
structure Order where
  id : Nat
  user_id : Nat
  total_amount : ℚ
  payment_intent_id : String
  status : String
deriving DecidableEq, Repr

/-- A row of the `order_items` table. -/
structure OrderItem where
  id : Nat
  order_id : Nat
  product_id : Nat
  quantity : Int
  price : ℚ
deriving DecidableEq, Repr

/-- The database state: the five relations plus a fresh-id counter
standing for the serial id sequences. -/
structure DB where
  users : List User
  products : List Product
  cart_items : List CartItem
  orders : List Order
  order_items : List OrderItem
  nextId : Nat
deriving DecidableEq, Repr

/-- A structured error response: HTTP status code and message. -/
structure ApiErr where
  code : Nat
  msg : String
deriving DecidableEq, Repr

instance exceptDecEq {α β : Type} [DecidableEq α] [DecidableEq β] : DecidableEq (Except α β)
  | .ok a, .ok b =>
    if h : a = b then isTrue (by rw [h]) else isFalse (fun hc => h (by injection hc))
  | .ok _, .error _ => isFalse (fun hc => Except.noConfusion hc)
  | .error _, .ok _ => isFalse (fun hc => Except.noConfusion hc)
  | .error a, .error b =>
    if h : a = b then isTrue (by rw [h]) else isFalse (fun hc => h (by injection hc))

/-! ## Auth service (`token_required`, `validate_email`, `signup`) -/

/-- Split a character list at every occurrence of `sep`, keeping empty
pieces — the semantics of Python's `str.split(sep)` with an explicit
one-character separator (structurally recursive so the kernel can
evaluate it). -/
def splitOnChar (sep : Char) : List Char → List (List Char)
  | [] => [[]]
  | c :: t =>
    match splitOnChar sep t with
    | [] => if c = sep then [[], []] else [[c]]
    | h :: r => if c = sep then [] :: h :: r else (c :: h) :: r

/-- Python's `s.split(sep)` for a one-character separator, on strings. -/
def splitStr (sep : Char) (s : String) : List String :=
  (splitOnChar sep s.toList).map (fun l => String.mk l)

/-- Outcome of `jwt.decode` on a token string: the external PyJWT library,
modelled as an oracle. `ok` carries the `sub` and `user_id` claims (absent
claims are `none`); `expired` and `invalid` are the two exception classes
the handler catches. -/
inductive DecodeResult where
  | ok (sub : Option String) (user_id : Option Nat)
  | expired
  | invalid
deriving DecidableEq, Repr

/-- Result of the `token_required` decorator: either the resolved
current-user row or one of the distinct 401 responses. -/
inductive AuthResult where
  | success (u : User)
  | errMissing
  | errMalformed
  | errExpired
  | errInvalid
  | errUserNotFound
deriving DecidableEq, Repr

/-- The `token_required` decorator: extracts the bearer token from the
`Authorization` header, decodes it, checks the `sub`/`user_id` claims and
resolves the user row by email and id. -/
def token_required (decode : String → DecodeResult) (users : List User)
    (authHeader : Option String) : AuthResult :=
  match authHeader with
  | none => .errMissing
  | some h =>
    if h = "" then .errMissing
    else
      match (splitStr ' ' h).get? 1 with
      | none => .errMalformed
      | some tok =>
        if tok = "" then .errMissing
        else
          match decode tok with
          | .expired => .errExpired
          | .invalid => .errInvalid
          | .ok sub uid =>
            if sub.getD "" = "" ∨ uid.getD 0 = 0 then .errInvalid
            else
              match users.find? (fun u => u.email == sub.getD "" && u.id == uid.getD 0) with
              | none => .errUserNotFound
              | some u => .success u

/-- Character class `[a-zA-Z0-9._%+-]` of the signup email regex. -/
def isClassA (c : Char) : Bool :=
  c.isAlphanum || c = '.' || c = '_' || c = '%' || c = '+' || c = '-'

/-- Character class `[a-zA-Z0-9.-]` of the signup email regex. -/
def isClassB (c : Char) : Bool :=
  c.isAlphanum || c = '.' || c = '-'

/-- The `validate_email` check: the regex
`^[a-zA-Z0-9._%+-]+@[a-zA-Z0-9.-]+\.[a-zA-Z]\x7b2,\x7d$`. Both classes
exclude `@`, so a match needs exactly one `@`; the trailing `[a-zA-Z]+`
part contains no dot, so it must sit after the last dot of the domain. -/
def validate_email (s : String) : Bool :=
  match splitStr '@' s with
  | [lp, domain] =>
    lp ≠ "" && lp.toList.all isClassA &&
    (match (splitStr '.' domain).reverse with
     | tld :: rest =>
       let before := String.intercalate "." rest.reverse
       rest ≠ [] && before ≠ "" && before.toList.all isClassB &&
         2 ≤ tld.length && tld.toList.all (fun c => c.isAlpha)
     | [] => false)
  | _ => false

/-- The `/auth/signup` handler. `hashPw` stands for werkzeug's
`generate_password_hash`; absent JSON keys are `none`. The supplied role
string is stored as given, defaulting to `"customer"`. -/
def signup (hashPw : String → String) (db : DB)
    (email username password role : Option String) : Except ApiErr Nat × DB :=
  if email.getD "" = "" ∨ username.getD "" = "" ∨ password.getD "" = "" then
    (.error ⟨400, "Email, username, and password are required"⟩, db)
  else if validate_email (email.getD "") = false then
    (.error ⟨400, "Invalid email format"⟩, db)
  else if db.users.any (fun us => us.email == email.getD "") then
    (.error ⟨400, "Email already registered"⟩, db)
  else if db.users.any (fun us => us.username == username.getD "") then
    (.error ⟨400, "Username already taken"⟩, db)
  else
    (.ok db.nextId,
     { db with
       users := db.users ++
         [{ id := db.nextId, email := email.getD "", username := username.getD "",
            hashed_password := hashPw (password.getD ""), role := role.getD "customer" }],
       nextId := db.nextId + 1 })

/-! ## Cart aggregator -/

/-- The join `cart_items ci JOIN products p ON ci.product_id = p.id WHERE
ci.user_id = uid` used by `get_cart` and `create_payment` (note: no
`is_active` filter). -/
def cartLines (db : DB) (uid : Nat) : List (CartItem × Product) :=
  (db.cart_items.filter (fun ci => ci.user_id == uid)).filterMap
    (fun ci => (db.products.find? (fun p => p.id == ci.product_id)).map (fun p => (ci, p)))

/-- One line of the `/cart` response (product data joined in, price
converted to float). -/
structure CartLineView where
  id : Nat
  product_id : Nat
  quantity : Int
  name : String
  price : ℚ
  image_url : Option String
deriving DecidableEq, Repr

/-- The `/cart` response: items, float-summed total, item count. -/
structure CartView where
  items : List CartLineView
  total : ℚ
  item_count : Nat
deriving DecidableEq, Repr

/-- `sum(float(item["price"]) * item["quantity"] for item in cart_items)`:
a left fold of binary64 additions over binary64 products. -/
def floatTotal (ls : List (CartItem × Product)) : ℚ :=
  ls.foldl
    (fun acc l => pyFloat (qadd acc (pyFloat (qmul (pyFloat l.2.price) (pyFloat (mkRat l.1.quantity 1))))))
    (mkRat 0 1)

/-- The `/cart` GET handler. -/
def get_cart (db : DB) (uid : Nat) : CartView :=
  { items := (cartLines db uid).map (fun l =>
      { id := l.1.id, product_id := l.1.product_id, quantity := l.1.quantity,
        name := l.2.name, price := pyFloat l.2.price, image_url := l.2.image_url }),
    total := floatTotal (cartLines db uid),
    item_count := (cartLines db uid).length }

/-- The `/cart/items` POST handler: upsert of a cart line. The product
lookup is `SELECT * FROM products WHERE id = $1` with no `is_active`
filter. -/
def add_to_cart (db : DB) (u : User) (product_id : Option Nat) (quantity : Int) :
    Except ApiErr CartItem × DB :=
  if product_id.getD 0 = 0 then (.error ⟨400, "Product ID is required"⟩, db)
  else
    match db.products.find? (fun p => p.id == product_id.getD 0) with
    | none => (.error ⟨404, "Product not found"⟩, db)
    | some _ =>
      match db.cart_items.find? (fun c => c.user_id == u.id && c.product_id == product_id.getD 0) with
      | some ex =>
        (.ok { ex with quantity := ex.quantity + quantity },
         { db with cart_items := db.cart_items.map (fun c =>
             if c.id == ex.id then { c with quantity := c.quantity + quantity } else c) })
      | none =>
        (.ok { id := db.nextId, user_id := u.id, product_id := product_id.getD 0, quantity := quantity },
         { db with
           cart_items := db.cart_items ++
             [{ id := db.nextId, user_id := u.id, product_id := product_id.getD 0, quantity := quantity }],
           nextId := db.nextId + 1 })

/-- Response of the cart-item PUT handler: the line was removed
(non-positive quantity) or updated. -/
inductive CartUpdResp where
  | removed
  | updated (ci : CartItem)
deriving DecidableEq, Repr

/-- The `/cart/items/&lt;id&gt;` PUT handler. -/
def update_cart_item (db : DB) (u : User) (item_id : Nat) (quantity : Option Int) :
    Except ApiErr CartUpdResp × DB :=
  match quantity with
  | none => (.error ⟨400, "Quantity is required"⟩, db)
  | some q =>
    match db.cart_items.find? (fun c => c.id == item_id && c.user_id == u.id) with
    | none => (.error ⟨404, "Cart item not found"⟩, db)
    | some ci =>
      if q ≤ 0 then
        (.ok .removed, { db with cart_items := db.cart_items.filter (fun c => !(c.id == item_id)) })
      else
        (.ok (.updated { ci with quantity := q }),
         { db with cart_items := db.cart_items.map (fun c =>
             if c.id == item_id then { c with quantity := q } else c) })

/-- The `/cart/items/&lt;id&gt;` DELETE handler. -/
def remove_from_cart (db : DB) (u : User) (item_id : Nat) : Except ApiErr String × DB :=
  match db.cart_items.find? (fun c => c.id == item_id && c.user_id == u.id) with
  | none => (.error ⟨404, "Cart item not found"⟩, db)
  | some _ =>
    (.ok "Item removed from cart",
     { db with cart_items := db.cart_items.filter (fun c => !(c.id == item_id)) })

/-! ## Order state machine and payment gateway adapter boundary -/

/-- Outcome of `paypalrestsdk.Payment(...).create()`: on success the
provider assigns a payment id and (usually) an approval link. -/
inductive PPCreate where
  | ok (payment_id : String) (approval_url : Option String)
  | failed (err : String)
deriving DecidableEq, Repr

/-- Outcome of `Payment.find` + `payment.execute`: success, a `False`
return with an error message, or a raised exception. -/
inductive PPExec where
  | ok
  | failed (err : String)
  | raised (err : String)
deriving DecidableEq, Repr

/-- The `/checkout` response body (paypal path or mock path). -/
inductive CheckoutResp where
  | paypal (payment_id : String) (order_id : Nat) (approval_url : Option String) (total_amount : ℚ)
  | mock (order_id : Nat) (total_amount : ℚ) (payment_intent_id : String) (status : String)
deriving DecidableEq, Repr

/-- The `/payment/execute` response body. -/
structure ExecResp where
  payment_id : String
  order_id : Option Nat
deriving DecidableEq, Repr

/-- Modelled from the spec: the orders-table schema is not under `src/`;
the mock-path `INSERT INTO orders` omits the `status` column, and the spec
says such orders are created directly in `created` status, so the column
default is modelled as `"created"`. -/
def defaultOrderStatus : String := "created"

/-- The order-item snapshot rows `INSERT INTO order_items ...` written for
each cart line at checkout: quantity copied, price the stored image of the
product's live price at this instant. -/
def snapshotItems (startId oid : Nat) (ls : List (CartItem × Product)) : List OrderItem :=
  ls.enum.map (fun e =>
    { id := startId + e.1, order_id := oid, product_id := e.2.1.product_id,
      quantity := e.2.1.quantity, price := storedPrice e.2.2.price })

/-- The `/checkout` POST handler (`create_payment`). `pm` is the requested
`payment_method` (the JSON default is `"paypal"`); `ppc` says whether a
PayPal client id is configured; `pp` is the adapter's create outcome; `ts`
the current timestamp used for the mock payment-intent id. -/
def create_payment (db : DB) (u : User) (pm : String) (ppc : Bool) (pp : PPCreate)
    (ts : Nat) : Except ApiErr CheckoutResp × DB :=
  if cartLines db u.id = [] then (.error ⟨400, "Cart is empty"⟩, db)
  else if pm = "paypal" ∧ ppc = true then
    match pp with
    | .ok pid approval =>
      (.ok (.paypal pid db.nextId approval (floatTotal (cartLines db u.id))),
       { db with
         orders := db.orders ++
           [⟨db.nextId, u.id, numericOfFloat (floatTotal (cartLines db u.id)), pid, "pending_payment"⟩],
         order_items := db.order_items ++ snapshotItems (db.nextId + 1) db.nextId (cartLines db u.id),
         nextId := db.nextId + 1 + (cartLines db u.id).length })
    | .failed e => (.error ⟨400, "PayPal payment creation failed: " ++ e⟩, db)
  else
    (.ok (.mock db.nextId (floatTotal (cartLines db u.id)) ("mock_" ++ toString ts) "created"),
     { db with
       orders := db.orders ++
         [⟨db.nextId, u.id, numericOfFloat (floatTotal (cartLines db u.id)),
           "mock_" ++ toString ts, defaultOrderStatus⟩],
       order_items := db.order_items ++ snapshotItems (db.nextId + 1) db.nextId (cartLines db u.id),
       cart_items := db.cart_items.filter (fun c => !(c.user_id == u.id)),
       nextId := db.nextId + 1 + (cartLines db u.id).length })

/-- The `/payment/execute` POST handler. The `UPDATE orders SET status =
'created'` statement filters only on `payment_intent_id` and `user_id` —
there is no guard on the current status. -/
def execute_payment (db : DB) (u : User) (payment_id payer_id : Option String)
    (pp : PPExec) : Except ApiErr ExecResp × DB :=
  if payment_id.getD "" = "" ∨ payer_id.getD "" = "" then
    (.error ⟨400, "Payment ID and Payer ID are required"⟩, db)
  else
    match pp with
    | .raised e => (.error ⟨400, "Payment execution error: " ++ e⟩, db)
    | .failed e => (.error ⟨400, "Payment execution failed: " ++ e⟩, db)
    | .ok =>
      (.ok { payment_id := payment_id.getD "",
             order_id := ((db.orders.map (fun o =>
                 if o.payment_intent_id == payment_id.getD "" && o.user_id == u.id then
                   { o with status := "created" } else o)).find?
               (fun o => o.payment_intent_id == payment_id.getD "" && o.user_id == u.id)).map
                 (fun o => o.id) },
       { db with
         orders := db.orders.map (fun o =>
           if o.payment_intent_id == payment_id.getD "" && o.user_id == u.id then
             { o with status := "created" } else o),
         cart_items := db.cart_items.filter (fun c => !(c.user_id == u.id)) })

/-- The `/orders/&lt;id&gt;/cancel` PUT handler. -/
def cancel_order (db : DB) (u : User) (order_id : Nat) : Except ApiErr String × DB :=
  match db.orders.find? (fun o => o.id == order_id && o.user_id == u.id) with
  | none => (.error ⟨404, "Order not found"⟩, db)
  | some o =>
    if o.status = "created" ∨ o.status = "pending_payment" then
      (.ok "Order cancelled successfully",
       { db with orders := db.orders.map (fun o2 =>
           if o2.id == order_id then { o2 with status := "cancelled" } else o2) })
    else (.error ⟨400, "Cannot cancel order that is not in created or pending status"⟩, db)

/-! ## Product catalog -/

/-- The optional update fields of the vendor product PUT handler (absent
or JSON-null fields are `none`). -/
structure UpdateFields where
  name : Option String := none
  description : Option String := none
  price : Option ℚ := none
  stock : Option Int := none
  category : Option String := none
  image_url : Option String := none
deriving DecidableEq, Repr

/-- True when no updatable field was supplied. -/
def UpdateFields.isEmptyUpd (f : UpdateFields) : Bool :=
  f.name.isNone && f.description.isNone && f.price.isNone && f.stock.isNone &&
    f.category.isNone && f.image_url.isNone

/-- Apply supplied update fields to a product row (a new price passes
through the float parameter and the numeric column cast). -/
def applyUpdate (f : UpdateFields) (p : Product) : Product :=
  { p with
    name := f.name.getD p.name,
    description := f.description.getD p.description,
    price := match f.price with | some q => storedPrice q | none => p.price,
    stock := f.stock.getD p.stock,
    category := f.category.getD p.category,
    image_url := match f.image_url with | some v => some v | none => p.image_url }

/-- The `/vendor/products/&lt;id&gt;` PUT handler (`update_product`): looks
the row up without an `is_active` filter, checks ownership or admin role,
then updates only the supplied fields of the `products` row. -/
def update_product (db : DB) (u : User) (product_id : Nat) (f : UpdateFields) :
    Except ApiErr Product × DB :=
  match db.products.find? (fun p => p.id == product_id) with
  | none => (.error ⟨404, "Product not found"⟩, db)
  | some p =>
    if p.vendor_id ≠ u.id ∧ u.role ≠ "admin" then
      (.error ⟨403, "Not authorized to update this product"⟩, db)
    else if f.isEmptyUpd then (.ok p, db)
    else
      (.ok (applyUpdate f p),
       { db with products := db.products.map (fun q =>
           if q.id == product_id then applyUpdate f q else q) })

/-- The `/vendor/products/&lt;id&gt;` DELETE handler: flips `is_active` to
false, keeping the row. -/
def delete_product (db : DB) (u : User) (product_id : Nat) : Except ApiErr String × DB :=
  match db.products.find? (fun p => p.id == product_id) with
  | none => (.error ⟨404, "Product not found"⟩, db)
  | some p =>
    if p.vendor_id ≠ u.id ∧ u.role ≠ "admin" then
      (.error ⟨403, "Not authorized to delete this product"⟩, db)
    else
      (.ok "Product deleted successfully",
       { db with products := db.products.map (fun q =>
           if q.id == product_id then { q with is_active := false } else q) })

/-- The `/products/&lt;id&gt;` GET handler: `WHERE id = $1 AND is_active =
true`. -/
def get_product (db : DB) (product_id : Nat) : Except ApiErr Product :=
  match db.products.find? (fun p => p.id == product_id && p.is_active) with
  | none => .error ⟨404, "Product not found"⟩
  | some p => .ok { p with price := pyFloat p.price }

/-- Does the character list start with the given pattern? -/
def startsWithChars : List Char → List Char → Bool
  | [], _ => true
  | _ :: _, [] => false
  | a :: n, c :: t => a = c && startsWithChars n t

/-- Does the character list contain the pattern as a contiguous sublist? -/
def hasSubChars (n : List Char) : List Char → Bool
  | [] => n.isEmpty
  | c :: t => startsWithChars n (c :: t) || hasSubChars n t

/-- Case-insensitive substring test (`name ILIKE '%pat%'`, wildcard
characters inside the pattern not modelled). -/
def lowerContains (h n : String) : Bool :=
  hasSubChars n.toLower.toList h.toLower.toList

/-- The WHERE clause of the product listing: `is_active = true` plus the
optional category and search filters (a falsy or `"all"` category and a
falsy search are skipped). -/
def productMatches (cat sr : Option String) (p : Product) : Bool :=
  p.is_active &&
  (match cat with
   | some c => if c ≠ "" ∧ c ≠ "all" then p.category == c else true
   | none => true) &&
  (match sr with
   | some s => if s ≠ "" then lowerContains p.name s else true
   | none => true)

/-- Insert a product into a list sorted by `created_at` descending. -/
def insertDesc (p : Product) : List Product → List Product
  | [] => [p]
  | q :: t => if q.created_at ≤ p.created_at then p :: q :: t else q :: insertDesc p t

/-- Sort products by `created_at` descending (`ORDER BY created_at DESC`). -/
def sortDesc : List Product → List Product
  | [] => []
  | p :: t => insertDesc p (sortDesc t)

/-- The `/products` GET response. -/
structure ProductsResp where
  products : List Product
  total : Nat
  skip : Nat
  limit : Nat
deriving DecidableEq, Repr

/-- The `/products` GET handler: filter, order by `created_at` descending,
`OFFSET skip LIMIT limit`, with the count over the same filter. -/
def get_products (db : DB) (skip limit : Nat) (cat sr : Option String) : ProductsResp :=
  { products := (((sortDesc (db.products.filter (productMatches cat sr))).drop skip).take limit).map
      (fun p => { p with price := pyFloat p.price }),
    total := (db.products.filter (productMatches cat sr)).length,
    skip := skip, limit := limit }

/-! ## Helper lemmas -/

theorem find?_append_none {α : Type} (p : α → Bool) {l₁ : List α} (l₂ : List α)
    (h : l₁.find? p = none) : (l₁ ++ l₂).find? p = l₂.find? p := by
  rw [List.find?_append, h, Option.none_or]

theorem cartLines_of_no_rows (db : DB) (uid : Nat)
    (h : db.cart_items.filter (fun ci => ci.user_id == uid) = []) :
    cartLines db uid = [] := by
  unfold cartLines
  rw [h]
  rfl

theorem cartLines_ne_nil (db : DB) (uid : Nat)
    (hne : db.cart_items.filter (fun ci => ci.user_id == uid) ≠ [])
    (href : ∀ ci ∈ db.cart_items, (db.products.find? (fun p => p.id == ci.product_id)).isSome) :
    cartLines db uid ≠ [] := by
  unfold cartLines
  cases hfl : db.cart_items.filter (fun ci => ci.user_id == uid) with
  | nil => exact absurd hfl hne
  | cons hd tl =>
    have hmem : hd ∈ db.cart_items :=
      (List.mem_filter.mp (hfl ▸ List.mem_cons_self hd tl)).1
    obtain ⟨p, hp⟩ := Option.isSome_iff_exists.mp (href hd hmem)
    simp [List.filterMap_cons, hp]

theorem filter_user_cleared (l : List CartItem) (u : Nat) :
    (l.filter (fun c => !(c.user_id == u))).filter (fun ci => ci.user_id == u) = [] := by
  rw [List.filter_filter]
  simp

theorem snapshotItems_key_map (startId oid : Nat) (ls : List (CartItem × Product)) :
    (snapshotItems startId oid ls).map (fun oi => (oi.product_id, oi.quantity))
      = ls.map (fun l => (l.1.product_id, l.1.quantity)) := by
  unfold snapshotItems
  rw [List.map_map]
  have h : ((fun oi : OrderItem => (oi.product_id, oi.quantity)) ∘
      (fun e : Nat × (CartItem × Product) =>
        OrderItem.mk (startId + e.1) oid e.2.1.product_id e.2.1.quantity (storedPrice e.2.2.price)))
      = (fun l : CartItem × Product => (l.1.product_id, l.1.quantity)) ∘ Prod.snd := rfl
  rw [h, ← List.map_map, List.enum_map_snd]

theorem snapshotItems_price_map (startId oid : Nat) (ls : List (CartItem × Product)) :
    (snapshotItems startId oid ls).map (fun oi => oi.price)
      = ls.map (fun l => storedPrice l.2.price) := by
  unfold snapshotItems
  rw [List.map_map]
  have h : ((fun oi : OrderItem => oi.price) ∘
      (fun e : Nat × (CartItem × Product) =>
        OrderItem.mk (startId + e.1) oid e.2.1.product_id e.2.1.quantity (storedPrice e.2.2.price)))
      = (fun l : CartItem × Product => storedPrice l.2.price) ∘ Prod.snd := rfl
  rw [h, ← List.map_map, List.enum_map_snd]

/-! ## Fixtures used by witnesses and counterexamples -/

/-- A customer account. -/
def uW : User := ⟨1, "w@example.com", "wally", "pw", "customer"⟩

/-- An active product priced 9.99 (the spec example's product A). -/
def pW : Product := ⟨2, "Widget", "w", mkRat 999 100, 10, "tools", none, 3, true, 0⟩

/-- An active product priced 5.00 (the spec example's product B). -/
def pV : Product := ⟨6, "Bolt", "b", mkRat 5 1, 10, "tools", none, 3, true, 1⟩

/-- A database whose cart holds the spec example: 9.99 × 2 and 5.00 × 1. -/
def dbW : DB := ⟨[uW], [pW, pV], [⟨4, 1, 2, 2⟩, ⟨5, 1, 6, 1⟩], [], [], 7⟩

/-- A database with an empty cart. -/
def dbE : DB := ⟨[uW], [pW], [], [], [], 1⟩

/-! ## Claims -/

/-- Claim C1: for a user with a non-empty cart, checkout with a non-gateway
payment method returns the order, persists it with status `created` (via the
modelled column default), snapshots each cart line into an order item with
matching product and quantity, and leaves the user's cart empty immediately
afterwards; checkout with an empty cart fails with a 400 validation error
and changes nothing. -/
theorem C1_checkout_mock (db : DB) (u : User) (pm : String) (ppc : Bool)
    (pp : PPCreate) (ts : Nat) :
    (pm ≠ "paypal" →
      db.cart_items.filter (fun ci => ci.user_id == u.id) ≠ [] →
      (∀ ci ∈ db.cart_items, (db.products.find? (fun p => p.id == ci.product_id)).isSome) →
      (create_payment db u pm ppc pp ts).1 =
          .ok (.mock db.nextId (floatTotal (cartLines db u.id)) ("mock_" ++ toString ts) "created")
        ∧ (create_payment db u pm ppc pp ts).2.orders =
            db.orders ++ [⟨db.nextId, u.id, numericOfFloat (floatTotal (cartLines db u.id)),
              "mock_" ++ toString ts, "created"⟩]
        ∧ (create_payment db u pm ppc pp ts).2.order_items =
            db.order_items ++ snapshotItems (db.nextId + 1) db.nextId (cartLines db u.id)
        ∧ ((create_payment db u pm ppc pp ts).2.order_items.drop db.order_items.length).map
              (fun oi => (oi.product_id, oi.quantity)) =
            (cartLines db u.id).map (fun l => (l.1.product_id, l.1.quantity))
        ∧ (create_payment db u pm ppc pp ts).2.cart_items.filter (fun ci => ci.user_id == u.id) = [])
    ∧ (db.cart_items.filter (fun ci => ci.user_id == u.id) = [] →
        create_payment db u pm ppc pp ts = (.error ⟨400, "Cart is empty"⟩, db)) := by
  constructor
  · intro hpm hrows href
    have hls := cartLines_ne_nil db u.id hrows href
    have hcond : ¬(pm = "paypal" ∧ ppc = true) := fun hc => hpm hc.1
    unfold create_payment
    rw [if_neg hls, if_neg hcond]
    refine ⟨rfl, rfl, rfl, ?_, filter_user_cleared _ _⟩
    rw [List.drop_left, snapshotItems_key_map]
  · intro h
    unfold create_payment
    rw [if_pos (cartLines_of_no_rows db u.id h)]

/-- Witness for C1 at a concrete state: the spec-example cart checks out via
the mock method into a `created` order with an emptied cart, and the
empty-cart checkout fails with the validation error. -/
theorem C1_checkout_mock_witness :
    (create_payment dbW uW "mock" false (.failed "x") 5).2.orders =
        dbW.orders ++ [⟨dbW.nextId, uW.id, numericOfFloat (floatTotal (cartLines dbW uW.id)),
          "mock_" ++ toString 5, "created"⟩]
      ∧ (create_payment dbW uW "mock" false (.failed "x") 5).2.cart_items.filter
          (fun ci => ci.user_id == uW.id) = []
      ∧ create_payment dbE uW "mock" false (.failed "x") 5 = (.error ⟨400, "Cart is empty"⟩, dbE) := by
  have h := (C1_checkout_mock dbW uW "mock" false (.failed "x") 5).1
    (by decide) (by decide) (by decide)
  exact ⟨h.2.1, h.2.2.2.2, (C1_checkout_mock dbE uW "mock" false (.failed "x") 5).2 (by decide)⟩

theorem find?_map_status (orders : List Order) (ps : String) (uid : Nat) :
    ((orders.map (fun o =>
        if o.payment_intent_id == ps && o.user_id == uid then { o with status := "created" }
        else o)).find? (fun o => o.payment_intent_id == ps && o.user_id == uid))
      = (orders.find? (fun o => o.payment_intent_id == ps && o.user_id == uid)).map
          (fun o => { o with status := "created" }) := by
  induction orders with
  | nil => rfl
  | cons o t ih =>
    rw [List.map_cons]
    by_cases h : (o.payment_intent_id == ps && o.user_id == uid) = true
    · rw [if_pos h,
        @List.find?_cons_of_pos Order (fun o2 => o2.payment_intent_id == ps && o2.user_id == uid)
          { o with status := "created" } _ h,
        @List.find?_cons_of_pos Order (fun o2 => o2.payment_intent_id == ps && o2.user_id == uid)
          o _ h]
      rfl
    · rw [if_neg h,
        @List.find?_cons_of_neg Order (fun o2 => o2.payment_intent_id == ps && o2.user_id == uid)
          o _ h,
        @List.find?_cons_of_neg Order (fun o2 => o2.payment_intent_id == ps && o2.user_id == uid)
          o _ h, ih]

/-- An order whose payment session was cancelled (not `pending_payment`),
carrying payment intent id `PAY-1`. -/
def dbP : DB := ⟨[uW], [], [], [⟨3, 1, mkRat 10 1, "PAY-1", "cancelled"⟩], [], 9⟩

/-- A database with a `pending_payment` order (intent id `PAY-2`) and a
non-empty cart for the same user. -/
def dbQ : DB := ⟨[uW], [pW], [⟨8, 1, 2, 1⟩], [⟨3, 1, mkRat 10 1, "PAY-2", "pending_payment"⟩], [], 9⟩

/-- Claim C2 (amended): `execute_payment` fails with the 400 validation
error when either id is missing; on adapter failure or exception it returns
a 400 payment error with no state mutated; on adapter success it sets every
order of the caller carrying the payment intent id to status `created`
regardless of its current status (the update has no `pending_payment`
guard), leaves all other orders and every other relation untouched, clears
the caller's cart, and returns the payment id together with the matching
order's id. -/
theorem C2_execute_payment (db : DB) (u : User) (payment_id payer_id : Option String) :
    (payment_id.getD "" = "" ∨ payer_id.getD "" = "" →
      ∀ pp, execute_payment db u payment_id payer_id pp =
        (.error ⟨400, "Payment ID and Payer ID are required"⟩, db))
  ∧ (¬(payment_id.getD "" = "" ∨ payer_id.getD "" = "") →
      (∀ e, execute_payment db u payment_id payer_id (.failed e) =
          (.error ⟨400, "Payment execution failed: " ++ e⟩, db))
      ∧ (∀ e, execute_payment db u payment_id payer_id (.raised e) =
          (.error ⟨400, "Payment execution error: " ++ e⟩, db))
      ∧ (execute_payment db u payment_id payer_id .ok).2.orders =
          db.orders.map (fun o =>
            if o.payment_intent_id == payment_id.getD "" && o.user_id == u.id then
              { o with status := "created" } else o)
      ∧ (∀ o ∈ db.orders, o.payment_intent_id = payment_id.getD "" → o.user_id = u.id →
          ({ o with status := "created" } : Order) ∈
            (execute_payment db u payment_id payer_id .ok).2.orders)
      ∧ (∀ o ∈ db.orders, ¬(o.payment_intent_id = payment_id.getD "" ∧ o.user_id = u.id) →
          o ∈ (execute_payment db u payment_id payer_id .ok).2.orders)
      ∧ (execute_payment db u payment_id payer_id .ok).2.orders.length = db.orders.length
      ∧ (execute_payment db u payment_id payer_id .ok).2.cart_items.filter
          (fun ci => ci.user_id == u.id) = []
      ∧ (execute_payment db u payment_id payer_id .ok).2.order_items = db.order_items
      ∧ (execute_payment db u payment_id payer_id .ok).2.products = db.products
      ∧ (execute_payment db u payment_id payer_id .ok).1 =
          .ok ⟨payment_id.getD "",
            (db.orders.find? (fun o =>
              o.payment_intent_id == payment_id.getD "" && o.user_id == u.id)).map
              (fun o => o.id)⟩) := by
  constructor
  · intro hmiss pp
    unfold execute_payment
    rw [if_pos hmiss]
  · intro hmiss
    refine ⟨?_, ?_, ?_, ?_, ?_, ?_, ?_, ?_, ?_, ?_⟩
    · intro e; unfold execute_payment; rw [if_neg hmiss]
    · intro e; unfold execute_payment; rw [if_neg hmiss]
    · unfold execute_payment; rw [if_neg hmiss]
    · intro o ho hp hu
      unfold execute_payment
      rw [if_neg hmiss]
      exact List.mem_map.mpr ⟨o, ho, by simp [hp, hu]⟩
    · intro o ho hne
      unfold execute_payment
      rw [if_neg hmiss]
      refine List.mem_map.mpr ⟨o, ho, ?_⟩
      rw [if_neg]
      intro hb
      exact hne (by simpa [Bool.and_eq_true, beq_iff_eq] using hb)
    · unfold execute_payment; rw [if_neg hmiss]; exact List.length_map _ _
    · unfold execute_payment; rw [if_neg hmiss]; exact filter_user_cleared _ _
    · unfold execute_payment; rw [if_neg hmiss]
    · unfold execute_payment; rw [if_neg hmiss]
    · unfold execute_payment
      rw [if_neg hmiss, find?_map_status, Option.map_map]
      rfl

/-- Counterexample for C2 as stated: the claim says only orders currently
in `pending_payment` change status, but executing a payment against an
order in `cancelled` status flips it to `created`. -/
theorem C2_no_pending_guard_counterexample :
    dbP.orders.map (fun o => o.status) = ["cancelled"]
    ∧ (execute_payment dbP uW (some "PAY-1") (some "PAYER-7") .ok).2.orders.map
        (fun o => o.status) = ["created"] := by
  decide

/-- Witness for C2 at a concrete state: missing payment id gives the
validation error; a successful execution marks the pending order `created`
and empties the caller's cart. -/
theorem C2_execute_payment_witness :
    execute_payment dbQ uW none (some "p") .ok =
        (.error ⟨400, "Payment ID and Payer ID are required"⟩, dbQ)
    ∧ (execute_payment dbQ uW (some "PAY-2") (some "p") .ok).2.orders =
        dbQ.orders.map (fun o =>
          if o.payment_intent_id == (some "PAY-2").getD "" && o.user_id == uW.id then
            { o with status := "created" } else o)
    ∧ (execute_payment dbQ uW (some "PAY-2") (some "p") .ok).2.cart_items.filter
        (fun ci => ci.user_id == uW.id) = [] := by
  have h := (C2_execute_payment dbQ uW (some "PAY-2") (some "p")).2 (by decide)
  exact ⟨(C2_execute_payment dbQ uW none (some "p")).1 (by decide) .ok,
    h.2.2.1, h.2.2.2.2.2.2.1⟩

/-- A database with orders in `shipped` and `created` status. -/
def dbO : DB := ⟨[uW], [], [], [⟨3, 1, mkRat 5 1, "x", "shipped"⟩, ⟨4, 1, mkRat 5 1, "y", "created"⟩], [], 9⟩

/-- Claim C8: `cancel_order` fails with 404 when no order with that id
belongs to the caller, fails with the 400 state error when the order's
status is neither `created` nor `pending_payment`, and otherwise reports
success and rewrites the order's status to `cancelled`. -/
theorem C8_cancel_order (db : DB) (u : User) (oid : Nat) :
    (db.orders.find? (fun o => o.id == oid && o.user_id == u.id) = none →
      cancel_order db u oid = (.error ⟨404, "Order not found"⟩, db))
  ∧ (∀ o, db.orders.find? (fun o2 => o2.id == oid && o2.user_id == u.id) = some o →
      o.status ≠ "created" → o.status ≠ "pending_payment" →
      cancel_order db u oid =
        (.error ⟨400, "Cannot cancel order that is not in created or pending status"⟩, db))
  ∧ (∀ o, db.orders.find? (fun o2 => o2.id == oid && o2.user_id == u.id) = some o →
      o.status = "created" ∨ o.status = "pending_payment" →
      (cancel_order db u oid).1 = .ok "Order cancelled successfully"
      ∧ (cancel_order db u oid).2.orders =
          db.orders.map (fun o2 => if o2.id == oid then { o2 with status := "cancelled" } else o2)
      ∧ (∀ o2 ∈ db.orders, o2.id = oid →
          ({ o2 with status := "cancelled" } : Order) ∈ (cancel_order db u oid).2.orders)) := by
  refine ⟨?_, ?_, ?_⟩
  · intro h
    unfold cancel_order
    rw [h]
  · intro o hf h1 h2
    unfold cancel_order
    rw [hf]
    exact if_neg (by rintro (h | h); exact h1 h; exact h2 h)
  · intro o hf hst
    have hred : cancel_order db u oid =
        (.ok "Order cancelled successfully",
         { db with orders := db.orders.map (fun o2 =>
             if o2.id == oid then { o2 with status := "cancelled" } else o2) }) := by
      unfold cancel_order
      rw [hf]
      exact if_pos hst
    rw [hred]
    refine ⟨rfl, rfl, ?_⟩
    intro o2 ho2 hid
    exact List.mem_map.mpr ⟨o2, ho2, by simp [hid]⟩

/-- Witness for C8 at a concrete state: cancelling the shipped order fails
with the state error, cancelling the created order succeeds, cancelling an
unknown order id yields 404. -/
theorem C8_cancel_order_witness :
    cancel_order dbO uW 3 =
        (.error ⟨400, "Cannot cancel order that is not in created or pending status"⟩, dbO)
    ∧ (cancel_order dbO uW 4).1 = .ok "Order cancelled successfully"
    ∧ cancel_order dbO uW 99 = (.error ⟨404, "Order not found"⟩, dbO) := by
  refine ⟨(C8_cancel_order dbO uW 3).2.1 ⟨3, 1, mkRat 5 1, "x", "shipped"⟩ (by decide)
      (by decide) (by decide),
    ((C8_cancel_order dbO uW 4).2.2 ⟨4, 1, mkRat 5 1, "y", "created"⟩ (by decide)
      (by decide)).1,
    (C8_cancel_order dbO uW 99).1 (by decide)⟩

/-- Claim C3: signup stores the client-supplied role string verbatim in the
new user row — any string, including `"admin"`, with no validation against
the role set — and defaults to `"customer"` when no role is supplied. -/
theorem C3_signup_role (hashPw : String → String) (db : DB) (e un pw : String)
    (role : Option String) (he : e ≠ "") (hv : validate_email e = true)
    (hun : un ≠ "") (hpw : pw ≠ "")
    (hne : ∀ us ∈ db.users, us.email ≠ e)
    (hnu : ∀ us ∈ db.users, us.username ≠ un) :
    signup hashPw db (some e) (some un) (some pw) role =
      (.ok db.nextId,
       { db with
         users := db.users ++ [⟨db.nextId, e, un, hashPw pw, role.getD "customer"⟩],
         nextId := db.nextId + 1 }) := by
  unfold signup
  have h1 : ¬((some e).getD "" = "" ∨ (some un).getD "" = "" ∨ (some pw).getD "" = "") := by
    simp [he, hun, hpw]
  have h2 : ¬(validate_email ((some e).getD "") = false) := by simp [hv]
  have h3 : ¬(db.users.any (fun us => us.email == (some e).getD "") = true) := by
    intro hc
    obtain ⟨x, hx, hb⟩ := List.any_eq_true.mp hc
    exact hne x hx (by simpa using hb)
  have h4 : ¬(db.users.any (fun us => us.username == (some un).getD "") = true) := by
    intro hc
    obtain ⟨x, hx, hb⟩ := List.any_eq_true.mp hc
    exact hnu x hx (by simpa using hb)
  rw [if_neg h1, if_neg h2, if_neg h3, if_neg h4]
  rfl

/-- Witness for C3: an unauthenticated signup with role `"admin"` stores
that role verbatim, and a signup without a role stores `"customer"`. -/
theorem C3_signup_role_witness :
    signup (fun s => s) dbE (some "eve@evil.com") (some "eve") (some "pw") (some "admin") =
      (.ok dbE.nextId,
       { dbE with
         users := dbE.users ++ [⟨dbE.nextId, "eve@evil.com", "eve", "pw", "admin"⟩],
         nextId := dbE.nextId + 1 })
    ∧ signup (fun s => s) dbE (some "bob@shop.com") (some "bob") (some "pw") none =
      (.ok dbE.nextId,
       { dbE with
         users := dbE.users ++ [⟨dbE.nextId, "bob@shop.com", "bob", "pw", "customer"⟩],
         nextId := dbE.nextId + 1 }) :=
  ⟨C3_signup_role (fun s => s) dbE "eve@evil.com" "eve" "pw" (some "admin")
      (by decide) (by decide) (by decide) (by decide) (by decide) (by decide),
   C3_signup_role (fun s => s) dbE "bob@shop.com" "bob" "pw" none
      (by decide) (by decide) (by decide) (by decide) (by decide) (by decide)⟩

/-- Claim C7: `token_required` yields the distinct errors for a missing
header, a malformed header, an expired token and an invalid token, and it
succeeds with the full user row exactly when decoding succeeded with
non-empty subject email and user id claims that resolve (jointly, by email
and id) to an existing user row. -/
theorem C7_authenticate (decode : String → DecodeResult) (users : List User) :
    token_required decode users none = .errMissing
  ∧ (∀ h, h ≠ "" → (splitStr ' ' h).get? 1 = none →
      token_required decode users (some h) = .errMalformed)
  ∧ (∀ h tok, h ≠ "" → (splitStr ' ' h).get? 1 = some tok → tok ≠ "" →
      decode tok = .expired → token_required decode users (some h) = .errExpired)
  ∧ (∀ h tok, h ≠ "" → (splitStr ' ' h).get? 1 = some tok → tok ≠ "" →
      decode tok = .invalid → token_required decode users (some h) = .errInvalid)
  ∧ ((AuthResult.errMissing ≠ .errMalformed ∧ AuthResult.errMissing ≠ .errExpired ∧
      AuthResult.errMissing ≠ .errInvalid) ∧ (AuthResult.errMalformed ≠ .errExpired ∧
      AuthResult.errMalformed ≠ .errInvalid) ∧ AuthResult.errExpired ≠ .errInvalid)
  ∧ (∀ h tok e uid u, h ≠ "" → (splitStr ' ' h).get? 1 = some tok → tok ≠ "" →
      decode tok = .ok (some e) (some uid) → e ≠ "" → uid ≠ 0 →
      (token_required decode users (some h) = .success u ↔
        users.find? (fun us => us.email == e && us.id == uid) = some u)) := by
  refine ⟨rfl, ?_, ?_, ?_, by decide, ?_⟩
  · intro h hne hsplit
    rw [List.get?_eq_getElem?] at hsplit
    simp [token_required, hne, hsplit]
  · intro h tok hne hsplit htok hdec
    rw [List.get?_eq_getElem?] at hsplit
    simp [token_required, hne, hsplit, htok, hdec]
  · intro h tok hne hsplit htok hdec
    rw [List.get?_eq_getElem?] at hsplit
    simp [token_required, hne, hsplit, htok, hdec]
  · intro h tok e uid u hne hsplit htok hdec hee huid
    rw [List.get?_eq_getElem?] at hsplit
    cases hfind : users.find? (fun us => us.email == e && us.id == uid) with
    | none => simp [token_required, hne, hsplit, htok, hdec, hee, huid, hfind]
    | some u2 => simp [token_required, hne, hsplit, htok, hdec, hee, huid, hfind]

/-- The decode oracle used by the C7 witness. -/
def decodeW : String → DecodeResult := fun t =>
  if t = "tok-ok" then .ok (some "w@example.com") (some 1)
  else if t = "tok-exp" then .expired else .invalid

/-- Witness for C7 at concrete headers: the four distinct errors and a
successful resolution of the user row. -/
theorem C7_authenticate_witness :
    token_required decodeW [uW] none = .errMissing
  ∧ token_required decodeW [uW] (some "Bearer") = .errMalformed
  ∧ token_required decodeW [uW] (some "Bearer tok-exp") = .errExpired
  ∧ token_required decodeW [uW] (some "Bearer tok-bad") = .errInvalid
  ∧ token_required decodeW [uW] (some "Bearer tok-ok") = .success uW := by
  have h := C7_authenticate decodeW [uW]
  refine ⟨h.1, h.2.1 "Bearer" (by decide) (by decide),
    h.2.2.1 "Bearer tok-exp" "tok-exp" (by decide) (by decide) (by decide) (by decide),
    h.2.2.2.1 "Bearer tok-bad" "tok-bad" (by decide) (by decide) (by decide) (by decide),
    (h.2.2.2.2.2 "Bearer tok-ok" "tok-ok" "w@example.com" 1 uW (by decide) (by decide)
      (by decide) (by decide) (by decide) (by decide)).mpr (by decide)⟩

/-- The `(user_id, product_id)` key of each cart row. -/
def cartKeys (l : List CartItem) : List (Nat × Nat) := l.map (fun c => (c.user_id, c.product_id))

/-- The cart uniqueness invariant of the spec's data model: no duplicate
`(user_id, product_id)` pairs among the cart rows. -/
def CartInv (db : DB) : Prop := (cartKeys db.cart_items).Nodup

instance (db : DB) : Decidable (CartInv db) :=
  inferInstanceAs (Decidable ((cartKeys db.cart_items).Nodup))

theorem cartKeys_map_preserve (l : List CartItem) (f : CartItem → CartItem)
    (hf : ∀ c, (f c).user_id = c.user_id ∧ (f c).product_id = c.product_id) :
    cartKeys (l.map f) = cartKeys l := by
  unfold cartKeys
  rw [List.map_map]
  refine List.map_congr_left (fun c _ => ?_)
  show ((f c).user_id, (f c).product_id) = (c.user_id, c.product_id)
  rw [(hf c).1, (hf c).2]

theorem nodup_concat {α : Type} {l : List α} {x : α} (h : l.Nodup) (hx : x ∉ l) :
    (l ++ [x]).Nodup :=
  List.nodup_append.mpr ⟨h, List.nodup_singleton x,
    fun a ha hb => hx (List.mem_singleton.mp hb ▸ ha)⟩

theorem cart_filter_inv (db : DB) (p : CartItem → Bool) (hinv : CartInv db) :
    CartInv { db with cart_items := db.cart_items.filter p } :=
  List.Nodup.sublist (List.Sublist.map _ (List.filter_sublist _)) hinv

theorem cart_map_inv (db : DB) (f : CartItem → CartItem)
    (hf : ∀ c, (f c).user_id = c.user_id ∧ (f c).product_id = c.product_id)
    (hinv : CartInv db) : CartInv { db with cart_items := db.cart_items.map f } := by
  show (cartKeys (db.cart_items.map f)).Nodup
  rw [cartKeys_map_preserve _ _ hf]
  exact hinv

theorem add_to_cart_inv (db : DB) (u : User) (pid : Option Nat) (q : Int)
    (hinv : CartInv db) : CartInv (add_to_cart db u pid q).2 := by
  unfold add_to_cart
  by_cases h0 : pid.getD 0 = 0
  · rw [if_pos h0]; exact hinv
  · rw [if_neg h0]
    cases hp : db.products.find? (fun p => p.id == pid.getD 0) with
    | none => exact hinv
    | some prod =>
      cases hc : db.cart_items.find?
          (fun c => c.user_id == u.id && c.product_id == pid.getD 0) with
      | some ex =>
        exact cart_map_inv db _ (fun c => by
          by_cases hb : (c.id == ex.id) = true
          · rw [if_pos hb]; exact ⟨rfl, rfl⟩
          · rw [if_neg hb]; exact ⟨rfl, rfl⟩) hinv
      | none =>
        show (cartKeys (db.cart_items ++ [⟨db.nextId, u.id, pid.getD 0, q⟩])).Nodup
        unfold cartKeys
        rw [List.map_append]
        refine nodup_concat hinv ?_
        intro hmem
        obtain ⟨c, hcm, hkey⟩ := List.mem_map.mp hmem
        refine List.find?_eq_none.mp hc c hcm ?_
        have h1 := congrArg Prod.fst hkey
        have h2 := congrArg Prod.snd hkey
        simp only at h1 h2
        simp [h1, h2]

theorem update_cart_item_inv (db : DB) (u : User) (iid : Nat) (q : Option Int)
    (hinv : CartInv db) : CartInv (update_cart_item db u iid q).2 := by
  unfold update_cart_item
  split
  · exact hinv
  · split
    · exact hinv
    · split
      · exact cart_filter_inv db _ hinv
      · exact cart_map_inv db _ (fun c => by
          by_cases hb : (c.id == iid) = true
          · rw [if_pos hb]; exact ⟨rfl, rfl⟩
          · rw [if_neg hb]; exact ⟨rfl, rfl⟩) hinv

theorem remove_from_cart_inv (db : DB) (u : User) (iid : Nat)
    (hinv : CartInv db) : CartInv (remove_from_cart db u iid).2 := by
  unfold remove_from_cart
  cases hc : db.cart_items.find? (fun c => c.id == iid && c.user_id == u.id) with
  | none => exact hinv
  | some ci => exact cart_filter_inv db _ hinv

/-- Claim C5: adding the same product twice yields a single cart line whose
quantity is `q1 + q2` (and exactly one row was inserted); the cart
invariant — no duplicate `(user_id, product_id)` pairs — is preserved by
the add, update and remove cart operations; and adding a product id with no
product row fails with 404. -/
theorem C5_cart_upsert (db : DB) (u : User) :
    (∀ pid q1 q2 prod,
      pid ≠ 0 →
      db.products.find? (fun p => p.id == pid) = some prod →
      db.cart_items.find? (fun c => c.user_id == u.id && c.product_id == pid) = none →
      (∀ c ∈ db.cart_items, c.id ≠ db.nextId) →
      (add_to_cart (add_to_cart db u (some pid) q1).2 u (some pid) q2).2.cart_items.filter
          (fun c => c.user_id == u.id && c.product_id == pid) = [⟨db.nextId, u.id, pid, q1 + q2⟩]
      ∧ (add_to_cart (add_to_cart db u (some pid) q1).2 u (some pid) q2).2.cart_items.length
          = db.cart_items.length + 1)
  ∧ (∀ pid q, CartInv db → CartInv (add_to_cart db u pid q).2)
  ∧ (∀ iid q, CartInv db → CartInv (update_cart_item db u iid q).2)
  ∧ (∀ iid, CartInv db → CartInv (remove_from_cart db u iid).2)
  ∧ (∀ pid q, pid ≠ 0 → db.products.find? (fun p => p.id == pid) = none →
      add_to_cart db u (some pid) q = (.error ⟨404, "Product not found"⟩, db)) := by
  refine ⟨?_, fun pid q => add_to_cart_inv db u pid q,
    fun iid q => update_cart_item_inv db u iid q,
    fun iid => remove_from_cart_inv db u iid, ?_⟩
  · intro pid q1 q2 prod hpid hprod hno hfresh
    have hstep1 : add_to_cart db u (some pid) q1 =
        (.ok ⟨db.nextId, u.id, pid, q1⟩,
         { db with
           cart_items := db.cart_items ++ [⟨db.nextId, u.id, pid, q1⟩],
           nextId := db.nextId + 1 }) := by
      unfold add_to_cart
      simp only [Option.getD_some]
      rw [if_neg hpid, hprod, hno]
    rw [hstep1]
    have hfind2 : (db.cart_items ++ [(⟨db.nextId, u.id, pid, q1⟩ : CartItem)]).find?
        (fun c => c.user_id == u.id && c.product_id == pid) =
        some ⟨db.nextId, u.id, pid, q1⟩ := by
      rw [find?_append_none _ _ hno]
      simp [List.find?]
    have hstep2 : add_to_cart
        ({ db with
           cart_items := db.cart_items ++ [⟨db.nextId, u.id, pid, q1⟩],
           nextId := db.nextId + 1 }) u (some pid) q2 =
        (.ok ⟨db.nextId, u.id, pid, q1 + q2⟩,
         { db with
           cart_items := (db.cart_items ++ [(⟨db.nextId, u.id, pid, q1⟩ : CartItem)]).map
             (fun c => if c.id == db.nextId then { c with quantity := c.quantity + q2 } else c),
           nextId := db.nextId + 1 }) := by
      unfold add_to_cart
      simp only [Option.getD_some]
      rw [if_neg hpid]
      rw [hprod, hfind2]
    rw [hstep2]
    have hmap : (db.cart_items ++ [(⟨db.nextId, u.id, pid, q1⟩ : CartItem)]).map
        (fun c => if c.id == db.nextId then { c with quantity := c.quantity + q2 } else c) =
        db.cart_items ++ [⟨db.nextId, u.id, pid, q1 + q2⟩] := by
      rw [List.map_append]
      have hl : db.cart_items.map
          (fun c => if c.id == db.nextId then { c with quantity := c.quantity + q2 } else c) =
          db.cart_items := by
        have h2 : db.cart_items.map
            (fun c => if c.id == db.nextId then { c with quantity := c.quantity + q2 } else c) =
            db.cart_items.map (fun c => c) :=
          List.map_congr_left (fun c hc => if_neg (fun hb => hfresh c hc (by simpa using hb)))
        rw [h2]
        simp
      rw [hl]
      simp [List.map]
    constructor
    · show ((db.cart_items ++ [(⟨db.nextId, u.id, pid, q1⟩ : CartItem)]).map
          (fun c => if c.id == db.nextId then { c with quantity := c.quantity + q2 } else c)).filter
          (fun c => c.user_id == u.id && c.product_id == pid) = _
      rw [hmap, List.filter_append]
      have hl : db.cart_items.filter (fun c => c.user_id == u.id && c.product_id == pid) = [] :=
        List.filter_eq_nil_iff.mpr (List.find?_eq_none.mp hno)
      rw [hl]
      simp [List.filter]
    · show ((db.cart_items ++ [(⟨db.nextId, u.id, pid, q1⟩ : CartItem)]).map
          (fun c => if c.id == db.nextId then { c with quantity := c.quantity + q2 } else c)).length = _
      rw [hmap]
      simp
  · intro pid q hpid hnone
    unfold add_to_cart
    simp only [Option.getD_some]
    rw [if_neg hpid, hnone]

/-- Witness for C5 at concrete states: two adds of product 2 with
quantities 2 and 3 leave one line with quantity 5; the invariant survives
an add into a populated cart; adding an unknown product id gives 404. -/
theorem C5_cart_upsert_witness :
    (add_to_cart (add_to_cart dbE uW (some 2) 2).2 uW (some 2) 3).2.cart_items.filter
        (fun c => c.user_id == uW.id && c.product_id == 2) = [⟨dbE.nextId, uW.id, 2, 2 + 3⟩]
    ∧ CartInv (add_to_cart dbW uW (some 6) 1).2
    ∧ add_to_cart dbE uW (some 99) 1 = (.error ⟨404, "Product not found"⟩, dbE) := by
  have h := C5_cart_upsert dbE uW
  exact ⟨(h.1 2 2 3 pW (by decide) (by decide) (by decide) (by decide)).1,
    (C5_cart_upsert dbW uW).2.1 (some 6) 1 (by decide),
    h.2.2.2.2 99 1 (by decide) (by decide)⟩

/-- Claim C4 (amended): `get_cart` returns the joined line items and their
count, and a total computed in IEEE binary64 floating point (`float(price)
* quantity` accumulated by float additions starting from 0); an empty cart
yields total 0 and an empty item list. The float total can drift from the
exact decimal sum: on the spec's own example it equals the binary64
neighbour of 24.98 rather than 24.98 exactly. -/
theorem C4_get_cart_total (db : DB) (uid : Nat) :
    (db.cart_items.filter (fun ci => ci.user_id == uid) = [] →
      get_cart db uid = ⟨[], mkRat 0 1, 0⟩)
  ∧ (get_cart db uid).total = floatTotal (cartLines db uid)
  ∧ (get_cart db uid).item_count = (cartLines db uid).length
  ∧ (get_cart db uid).items.length = (cartLines db uid).length
  ∧ (get_cart dbW 1).total = pyFloat (mkRat 2498 100)
  ∧ (get_cart dbW 1).item_count = 2 := by
  refine ⟨?_, rfl, rfl, ?_, by decide, by decide⟩
  · intro h
    unfold get_cart
    rw [cartLines_of_no_rows db uid h]
    rfl
  · unfold get_cart
    exact List.length_map _ _

/-- Counterexample for C4 as stated: the total is not the decimal-exact
`Σ (price × quantity)` — for the spec's example cart (9.99 × 2 and 5.00 ×
1) the decimal-safe sum is 24.98, but `get_cart` returns a drifted binary64
value distinct from it. -/
theorem C4_float_drift_counterexample :
    (get_cart dbW 1).total ≠ mkRat 2498 100
    ∧ mkRat 2498 100 = (999 / 100 : ℚ) * 2 + 5 * 1 := by
  constructor
  · decide
  · rw [Rat.mkRat_eq_div]
    norm_num

/-- Witness for C4 at concrete states: the empty cart gives total 0 and no
items; the example cart's float total evaluates to the binary64 neighbour
of 24.98. -/
theorem C4_get_cart_total_witness :
    get_cart dbE uW.id = ⟨[], mkRat 0 1, 0⟩
    ∧ (get_cart dbW 1).total = pyFloat (mkRat 2498 100) := by
  exact ⟨(C4_get_cart_total dbE uW.id).1 (by decide),
    (C4_get_cart_total dbW 1).2.2.2.2.1⟩

/-- Claim C6: on the gateway path with a successful adapter session,
checkout returns the approval target, persists the order in
`pending_payment` carrying the adapter's payment intent id, snapshots each
cart line (product, quantity, and the price stored at this instant) into
order items, and leaves the cart untouched; the cart is cleared by a later
successful `execute_payment`. -/
theorem C6_checkout_paypal (db : DB) (u : User) (pid : String)
    (approval : Option String) (ts : Nat) :
    db.cart_items.filter (fun ci => ci.user_id == u.id) ≠ [] →
    (∀ ci ∈ db.cart_items, (db.products.find? (fun p => p.id == ci.product_id)).isSome) →
    (create_payment db u "paypal" true (.ok pid approval) ts).1 =
        .ok (.paypal pid db.nextId approval (floatTotal (cartLines db u.id)))
      ∧ (create_payment db u "paypal" true (.ok pid approval) ts).2.orders =
          db.orders ++ [⟨db.nextId, u.id, numericOfFloat (floatTotal (cartLines db u.id)),
            pid, "pending_payment"⟩]
      ∧ (create_payment db u "paypal" true (.ok pid approval) ts).2.order_items =
          db.order_items ++ snapshotItems (db.nextId + 1) db.nextId (cartLines db u.id)
      ∧ ((create_payment db u "paypal" true (.ok pid approval) ts).2.order_items.drop
            db.order_items.length).map (fun oi => (oi.product_id, oi.quantity)) =
          (cartLines db u.id).map (fun l => (l.1.product_id, l.1.quantity))
      ∧ ((create_payment db u "paypal" true (.ok pid approval) ts).2.order_items.drop
            db.order_items.length).map (fun oi => oi.price) =
          (cartLines db u.id).map (fun l => storedPrice l.2.price)
      ∧ (create_payment db u "paypal" true (.ok pid approval) ts).2.cart_items = db.cart_items
      ∧ (∀ payer : String, payer ≠ "" → pid ≠ "" →
          (execute_payment (create_payment db u "paypal" true (.ok pid approval) ts).2 u
            (some pid) (some payer) .ok).2.cart_items.filter
              (fun ci => ci.user_id == u.id) = []) := by
  intro hrows href
  have hls := cartLines_ne_nil db u.id hrows href
  unfold create_payment
  rw [if_neg hls, if_pos ⟨rfl, rfl⟩]
  refine ⟨rfl, rfl, rfl, ?_, ?_, rfl, ?_⟩
  · rw [List.drop_left, snapshotItems_key_map]
  · rw [List.drop_left, snapshotItems_price_map]
  · intro payer hpayer hpid
    unfold execute_payment
    rw [if_neg (by simp [hpayer, hpid])]
    exact filter_user_cleared _ _

/-- Witness for C6 at a concrete state: the paypal checkout on the example
cart persists a `pending_payment` order with the adapter's payment id and
leaves the cart rows exactly as they were. -/
theorem C6_checkout_paypal_witness :
    (create_payment dbW uW "paypal" true (.ok "PAY-9" (some "http://approve")) 5).2.orders =
        dbW.orders ++ [⟨dbW.nextId, uW.id, numericOfFloat (floatTotal (cartLines dbW uW.id)),
          "PAY-9", "pending_payment"⟩]
    ∧ (create_payment dbW uW "paypal" true (.ok "PAY-9" (some "http://approve")) 5).2.cart_items
        = dbW.cart_items := by
  have h := C6_checkout_paypal dbW uW "PAY-9" (some "http://approve") 5 (by decide) (by decide)
  exact ⟨h.2.1, h.2.2.2.2.2.1⟩

theorem mem_insertDesc {p x : Product} {l : List Product} :
    x ∈ insertDesc p l ↔ x = p ∨ x ∈ l := by
  induction l with
  | nil => simp [insertDesc]
  | cons q t ih =>
    by_cases h : q.created_at ≤ p.created_at
    · simp [insertDesc, h]
    · simp only [insertDesc, if_neg h, List.mem_cons, ih]
      tauto

theorem mem_sortDesc {x : Product} : ∀ {l : List Product}, x ∈ sortDesc l ↔ x ∈ l := by
  intro l
  induction l with
  | nil => simp [sortDesc]
  | cons q t ih => simp [sortDesc, mem_insertDesc, ih]

/-- Claim C9: order items record `storedPrice` of the product's live price
at the instant of checkout (on both the mock and the gateway path), which
equals the price itself whenever the price survives the float/numeric
round-trip (every decimal currency amount does); and no other operation —
`update_product` included — ever changes the `order_items` relation. -/
theorem C9_snapshot_immutable :
    (∀ (db : DB) (u : User) (pm : String) (ppc : Bool) (pp : PPCreate) (ts : Nat),
      pm ≠ "paypal" →
      ((create_payment db u pm ppc pp ts).2.order_items.drop db.order_items.length).map
          (fun oi => oi.price) = (cartLines db u.id).map (fun l => storedPrice l.2.price))
  ∧ (∀ (db : DB) (u : User) (pid : String) (approval : Option String) (ts : Nat),
      ((create_payment db u "paypal" true (.ok pid approval) ts).2.order_items.drop
          db.order_items.length).map (fun oi => oi.price) =
        (cartLines db u.id).map (fun l => storedPrice l.2.price))
  ∧ (∀ ls : List (CartItem × Product), (∀ l ∈ ls, storedPrice l.2.price = l.2.price) →
      ls.map (fun l => storedPrice l.2.price) = ls.map (fun l => l.2.price))
  ∧ (∀ (db : DB) (u : User) (pid : Nat) (f : UpdateFields),
      (update_product db u pid f).2.order_items = db.order_items)
  ∧ (∀ (db : DB) (u : User) (pid : Nat),
      (delete_product db u pid).2.order_items = db.order_items)
  ∧ (∀ (db : DB) (u : User) (oid : Nat),
      (cancel_order db u oid).2.order_items = db.order_items)
  ∧ (∀ (db : DB) (u : User) (pid : Option Nat) (q : Int),
      (add_to_cart db u pid q).2.order_items = db.order_items)
  ∧ (∀ (db : DB) (u : User) (iid : Nat) (q : Option Int),
      (update_cart_item db u iid q).2.order_items = db.order_items)
  ∧ (∀ (db : DB) (u : User) (iid : Nat),
      (remove_from_cart db u iid).2.order_items = db.order_items)
  ∧ (∀ (db : DB) (u : User) (pi pa : Option String) (pp : PPExec),
      (execute_payment db u pi pa pp).2.order_items = db.order_items) := by
  refine ⟨?_, ?_, ?_, ?_, ?_, ?_, ?_, ?_, ?_, ?_⟩
  · intro db u pm ppc pp ts hpm
    by_cases hls : cartLines db u.id = []
    · unfold create_payment
      rw [if_pos hls, hls]
      simp [List.drop_length]
    · unfold create_payment
      rw [if_neg hls, if_neg (fun hc => hpm hc.1), List.drop_left, snapshotItems_price_map]
  · intro db u pid approval ts
    by_cases hls : cartLines db u.id = []
    · unfold create_payment
      rw [if_pos hls, hls]
      simp [List.drop_length]
    · unfold create_payment
      rw [if_neg hls, if_pos ⟨rfl, rfl⟩, List.drop_left, snapshotItems_price_map]
  · intro ls h
    exact List.map_congr_left (fun l hl => h l hl)
  · intro db u pid f
    unfold update_product
    repeat' split
    all_goals rfl
  · intro db u pid
    unfold delete_product
    repeat' split
    all_goals rfl
  · intro db u oid
    unfold cancel_order
    repeat' split
    all_goals rfl
  · intro db u pid q
    unfold add_to_cart
    repeat' split
    all_goals rfl
  · intro db u iid q
    unfold update_cart_item
    repeat' split
    all_goals rfl
  · intro db u iid
    unfold remove_from_cart
    repeat' split
    all_goals rfl
  · intro db u pi pa pp
    unfold execute_payment
    repeat' split
    all_goals rfl

/-- Witness for C9 at a concrete state: the mock checkout on the example
cart snapshots exactly the live prices 9.99 and 5.00 (which survive the
float pipeline), and a later price update leaves `order_items` unchanged. -/
theorem C9_snapshot_immutable_witness :
    ((create_payment dbW uW "mock" false (.failed "x") 5).2.order_items.drop
        dbW.order_items.length).map (fun oi => oi.price) =
      (cartLines dbW uW.id).map (fun l => storedPrice l.2.price)
    ∧ (cartLines dbW uW.id).map (fun l => storedPrice l.2.price) =
        (cartLines dbW uW.id).map (fun l => l.2.price)
    ∧ (update_product dbW uW 2 ⟨none, none, some (mkRat 123 10), none, none, none⟩).2.order_items
        = dbW.order_items := by
  have h := C9_snapshot_immutable
  exact ⟨h.1 dbW uW "mock" false (.failed "x") 5 (by decide),
    h.2.2.1 (cartLines dbW uW.id) (by decide),
    h.2.2.2.1 dbW uW 2 ⟨none, none, some (mkRat 123 10), none, none, none⟩⟩

/-- A vendor account owning the fixture products. -/
def uV : User := ⟨3, "v@shop.com", "vendor", "h", "vendor"⟩

/-- A soft-deleted (inactive) product. -/
def pX : Product := ⟨11, "Ghost", "g", mkRat 5 1, 3, "misc", none, 3, false, 0⟩

/-- A database whose only product is soft-deleted. -/
def dbX : DB := ⟨[uW], [pX], [], [], [], 5⟩

/-- Claim C10 (amended): deleting a product flips `is_active` to false and
keeps the row; the public fetch (`get_product`) and listing
(`get_products`) queries filter on the active flag, so a soft-deleted
product can be neither fetched nor listed; but `add_to_cart` looks the
product up without the filter, so a soft-deleted product can still be added
to a cart. -/
theorem C10_soft_delete (db : DB) (u : User) (pid : Nat) :
    (∀ p, db.products.find? (fun q => q.id == pid) = some p →
      ¬(p.vendor_id ≠ u.id ∧ u.role ≠ "admin") →
      (delete_product db u pid).1 = .ok "Product deleted successfully"
      ∧ (delete_product db u pid).2.products =
          db.products.map (fun q => if q.id == pid then { q with is_active := false } else q)
      ∧ (delete_product db u pid).2.products.length = db.products.length
      ∧ (∀ q ∈ db.products, q.id = pid →
          ({ q with is_active := false } : Product) ∈ (delete_product db u pid).2.products))
  ∧ ((∀ p ∈ db.products, p.id = pid → p.is_active = false) →
      get_product db pid = .error ⟨404, "Product not found"⟩)
  ∧ (∀ skip limit cat sr (p : Product),
      p ∈ (get_products db skip limit cat sr).products → p.is_active = true)
  ∧ (∀ prod q, pid ≠ 0 → db.products.find? (fun p => p.id == pid) = some prod →
      ∃ ci, (add_to_cart db u (some pid) q).1 = .ok ci) := by
  refine ⟨?_, ?_, ?_, ?_⟩
  · intro p hf hown
    have hred : delete_product db u pid =
        (.ok "Product deleted successfully",
         { db with products := db.products.map (fun q =>
             if q.id == pid then { q with is_active := false } else q) }) := by
      unfold delete_product
      rw [hf]
      exact if_neg hown
    rw [hred]
    refine ⟨rfl, rfl, List.length_map _ _, ?_⟩
    intro q hq hid
    exact List.mem_map.mpr ⟨q, hq, by simp [hid]⟩
  · intro hall
    unfold get_product
    have hnone : db.products.find? (fun p => p.id == pid && p.is_active) = none :=
      List.find?_eq_none.mpr (fun p hp hb => by
        simp only [Bool.and_eq_true, beq_iff_eq] at hb
        have h2 := hb.2
        rw [hall p hp hb.1] at h2
        exact Bool.false_ne_true h2)
    rw [hnone]
  · intro skip limit cat sr p hp
    unfold get_products at hp
    obtain ⟨q, hq, hpq⟩ := List.mem_map.mp hp
    have hq2 : q ∈ sortDesc (db.products.filter (productMatches cat sr)) :=
      List.drop_subset _ _ (List.take_subset _ _ hq)
    have hq3 : q ∈ db.products.filter (productMatches cat sr) := mem_sortDesc.mp hq2
    have hmatch : productMatches cat sr q = true := (List.mem_filter.mp hq3).2
    unfold productMatches at hmatch
    simp only [Bool.and_eq_true] at hmatch
    rw [← hpq]
    exact hmatch.1.1
  · intro prod q hpid hf
    cases hc : db.cart_items.find? (fun c => c.user_id == u.id && c.product_id == pid) with
    | some ex =>
      refine ⟨{ ex with quantity := ex.quantity + q }, ?_⟩
      unfold add_to_cart
      simp only [Option.getD_some]
      rw [if_neg hpid, hf, hc]
    | none =>
      refine ⟨⟨db.nextId, u.id, pid, q⟩, ?_⟩
      unfold add_to_cart
      simp only [Option.getD_some]
      rw [if_neg hpid, hf, hc]

/-- Counterexample for C10 as stated: a soft-deleted product is invisible
to `get_product` but can nevertheless be added to a cart — `add_to_cart`
succeeds and inserts a cart line for the inactive product. -/
theorem C10_inactive_add_counterexample :
    pX.is_active = false
    ∧ (add_to_cart dbX uW (some 11) 1).1 = .ok ⟨5, 1, 11, 1⟩
    ∧ (add_to_cart dbX uW (some 11) 1).2.cart_items = [⟨5, 1, 11, 1⟩]
    ∧ get_product dbX 11 = .error ⟨404, "Product not found"⟩ := by
  decide

/-- Witness for C10 at concrete states: the vendor's delete flips the flag
keeping the row, the inactive product cannot be fetched, a listed product
is active, and adding the inactive product to a cart succeeds. -/
theorem C10_soft_delete_witness :
    (delete_product dbW uV 2).2.products.length = dbW.products.length
    ∧ get_product dbX 11 = .error ⟨404, "Product not found"⟩
    ∧ ({ pW with price := pyFloat pW.price } : Product).is_active = true
    ∧ ∃ ci, (add_to_cart dbX uW (some 11) 1).1 = .ok ci := by
  refine ⟨((C10_soft_delete dbW uV 2).1 pW (by decide) (by decide)).2.2.1,
    (C10_soft_delete dbX uW 11).2.1 (by decide),
    (C10_soft_delete dbW uW 2).2.2.1 0 20 none none _ (by decide),
    (C10_soft_delete dbX uW 11).2.2.2 pX 1 (by decide) (by decide)⟩
